import Mathlib

/-!
# Verification of the sopimuskone employment-contract application

A shallow embedding of the contract data model, form state, persistence,
catalog, preview renderer and document exporter of `src/main.py`
(class `TyosopimusApp`), together with proofs settling the spec claims.

Conventions of the embedding:
* Python strings are Lean `String`s; character-level reasoning is done on
  `String.data : List Char`.
* `QDate` values are modelled by the `Date` structure; `QDate.toString
  "dd.MM.yyyy"` and `QDate.fromString s "dd.MM.yyyy"` are modelled by
  `Date.format` / `Date.parse` (the latter returns `none` for strings that
  are not a valid date in that exact format, modelling the invalid `QDate`).
* `datetime.now()` is passed in explicitly as a `DateTime` argument wherever
  the source calls it; likewise `QDate.currentDate()` as a `Date` argument.
* Python `str.replace(old, new)` (left-to-right, non-overlapping) is
  modelled by `pyReplace`.
* Fallible operations return `Option`.
-/

/-- The character for the decimal digit `n % 10` (`'0'`..`'9'`). -/
def digitChar (n : Nat) : Char :=
  match n % 10 with
  | 0 => '0'
  | 1 => '1'
  | 2 => '2'
  | 3 => '3'
  | 4 => '4'
  | 5 => '5'
  | 6 => '6'
  | 7 => '7'
  | 8 => '8'
  | _ => '9'

/-- Numeric value of a decimal digit character, `none` otherwise. -/
def digitVal? (c : Char) : Option Nat :=
  if '0' ≤ c ∧ c ≤ '9' then some (c.toNat - 48) else none

/-- Two-digit zero-padded decimal rendering (`%02d` for values below 100). -/
def pad2 (n : Nat) : String :=
  String.mk [digitChar (n / 10), digitChar n]

/-- Four-digit zero-padded decimal rendering (`%04d` for values below 10000). -/
def pad4 (n : Nat) : String :=
  String.mk [digitChar (n / 1000), digitChar (n / 100), digitChar (n / 10), digitChar n]

/-- Six-digit zero-padded decimal rendering (`%06d` for values below 1000000). -/
def pad6 (n : Nat) : String :=
  String.mk [digitChar (n / 100000), digitChar (n / 10000), digitChar (n / 1000),
    digitChar (n / 100), digitChar (n / 10), digitChar n]

/-- Left-to-right, non-overlapping replacement of `pat` by `rep` in a
character list, structurally recursive on a fuel counter so that it computes
by kernel reduction; `fuel = l.length` always suffices, since every step
consumes at least one character. -/
def replaceFromAux (pat rep : List Char) : Nat → List Char → List Char
  | _, [] => []
  | 0, l => l
  | fuel + 1, c :: rest =>
    if pat ≠ [] ∧ pat = (c :: rest).take pat.length then
      rep ++ replaceFromAux pat rep fuel ((c :: rest).drop pat.length)
    else
      c :: replaceFromAux pat rep fuel rest

/-- Left-to-right, non-overlapping replacement of `pat` by `rep` in a
character list: the model of Python `str.replace`. -/
def replaceFrom (pat rep l : List Char) : List Char :=
  replaceFromAux pat rep l.length l

/-- Model of Python `str.replace(pat, rep)`. -/
def pyReplace (s pat rep : String) : String :=
  String.mk (replaceFrom pat.data rep.data s.data)


/-- Model of Python `name.endswith(".json")`. -/
def endsJson (s : String) : Bool :=
  decide (s.data.drop (s.data.length - 5) = ".json".data)

/-- Model of `os.path.splitext(name)[0]` for a name ending in `".json"`:
drop the five-character extension. -/
def stemOf (s : String) : String :=
  String.mk (s.data.take (s.data.length - 5))

/-- Stable insertion of `x` into `l`: `x` goes in front of the first element
`y` with `le x y`. -/
def insOrdered (le : α → α → Bool) (x : α) : List α → List α
  | [] => [x]
  | y :: ys => if le x y then x :: y :: ys else y :: insOrdered le x ys

/-- Stable sort (equal elements keep their original relative order); with
`le a b := key b ≤ key a` this is the model of Python
`sorted(l, key=key, reverse=True)`. -/
def stableSortBy (le : α → α → Bool) : List α → List α
  | [] => []
  | x :: xs => insOrdered le x (stableSortBy le xs)

/-- A calendar date, the model of a `QDate` value held by a `QDateEdit`. -/
structure Date where
  year : Nat
  month : Nat
  day : Nat
deriving DecidableEq, Repr

/-- Gregorian leap-year rule (as used by both `QDate` and Python `datetime`). -/
def isLeapYear (y : Nat) : Bool :=
  (y % 4 == 0 && y % 100 != 0) || (y % 400 == 0)

/-- Number of days in a month of the (proleptic) Gregorian calendar. -/
def daysInMonth (y m : Nat) : Nat :=
  if m = 2 then (if isLeapYear y then 29 else 28)
  else if m = 4 ∨ m = 6 ∨ m = 9 ∨ m = 11 then 30
  else 31

/-- Validity of a date as accepted by `QDate` with a four-digit year
(also the validity domain of Python `datetime`). -/
def Date.valid (d : Date) : Bool :=
  1 ≤ d.year && d.year ≤ 9999 && 1 ≤ d.month && d.month ≤ 12 &&
    1 ≤ d.day && d.day ≤ daysInMonth d.year d.month

/-- Model of `QDate.toString("dd.MM.yyyy")` for a valid date. -/
def Date.format (d : Date) : String :=
  pad2 d.day ++ "." ++ pad2 d.month ++ "." ++ pad4 d.year

/-- Model of `QDate.fromString(s, "dd.MM.yyyy")`: `none` models the invalid
`QDate` returned for a string that is not a valid date in that format. -/
def Date.parse (s : String) : Option Date :=
  match s.data with
  | [d1, d2, p1, m1, m2, p2, y1, y2, y3, y4] =>
    if p1 = '.' ∧ p2 = '.' then
      match digitVal? d1, digitVal? d2, digitVal? m1, digitVal? m2,
            digitVal? y1, digitVal? y2, digitVal? y3, digitVal? y4 with
      | some a1, some a2, some b1, some b2, some c1, some c2, some c3, some c4 =>
        let d : Date := ⟨c1 * 1000 + c2 * 100 + c3 * 10 + c4, b1 * 10 + b2, a1 * 10 + a2⟩
        if d.valid then some d else none
      | _, _, _, _, _, _, _, _ => none
    else none
  | _ => none

/-- A timestamp, the model of a Python `datetime` value. -/
structure DateTime where
  year : Nat
  month : Nat
  day : Nat
  hour : Nat
  minute : Nat
  second : Nat
  usec : Nat
deriving DecidableEq, Repr

/-- Validity domain of Python `datetime`. -/
def DateTime.valid (t : DateTime) : Bool :=
  Date.valid ⟨t.year, t.month, t.day⟩ && t.hour ≤ 23 && t.minute ≤ 59 && t.second ≤ 59 &&
    t.usec ≤ 999999

/-- An order-preserving numeric key for valid timestamps; Python compares
`datetime` values field-lexicographically, which this encodes. -/
def DateTime.key (t : DateTime) : Nat :=
  ((((((t.year * 13 + t.month) * 32 + t.day) * 24 + t.hour) * 60 + t.minute) * 61
    + t.second) * 1000000) + t.usec

/-- Model of `datetime.isoformat()`: microseconds are printed only when
nonzero, exactly as Python does. -/
def DateTime.isoformat (t : DateTime) : String :=
  pad4 t.year ++ "-" ++ pad2 t.month ++ "-" ++ pad2 t.day ++ "T" ++ pad2 t.hour ++ ":"
    ++ pad2 t.minute ++ ":" ++ pad2 t.second
    ++ (if t.usec = 0 then "" else "." ++ pad6 t.usec)

/-- Model of `datetime.strftime("%Y%m%d_%H%M%S")`. -/
def DateTime.stamp (t : DateTime) : String :=
  pad4 t.year ++ pad2 t.month ++ pad2 t.day ++ "_" ++ pad2 t.hour ++ pad2 t.minute
    ++ pad2 t.second

/-- Model of `datetime.fromisoformat` on the shapes this application can
produce or meet: `YYYY-MM-DD`, optionally followed by a `T` or space
separator, `HH:MM:SS` and an optional 6-digit fraction (the exact output
shapes of `datetime.isoformat()`); anything else yields `none`
(`ValueError` in Python). -/
def parseIso (s : String) : Option DateTime :=
  match s.data with
  | [y1, y2, y3, y4, '-', m1, m2, '-', d1, d2] =>
    (mkIso y1 y2 y3 y4 m1 m2 d1 d2 '0' '0' '0' '0' '0' '0' "")
  | y1 :: y2 :: y3 :: y4 :: '-' :: m1 :: m2 :: '-' :: d1 :: d2 :: sep :: h1 :: h2 :: ':'
      :: mi1 :: mi2 :: ':' :: s1 :: s2 :: rest =>
    if sep = 'T' ∨ sep = ' ' then
      mkIso y1 y2 y3 y4 m1 m2 d1 d2 h1 h2 mi1 mi2 s1 s2 (String.mk rest)
    else none
  | _ => none
where
  /-- Assemble and validate the timestamp from its digit characters and the
  (possibly empty) fractional tail. -/
  mkIso (y1 y2 y3 y4 m1 m2 d1 d2 h1 h2 mi1 mi2 s1 s2 : Char) (frac : String) :
      Option DateTime :=
    match digitVal? y1, digitVal? y2, digitVal? y3, digitVal? y4, digitVal? m1, digitVal? m2,
          digitVal? d1, digitVal? d2, digitVal? h1, digitVal? h2, digitVal? mi1, digitVal? mi2,
          digitVal? s1, digitVal? s2 with
    | some a1, some a2, some a3, some a4, some b1, some b2, some c1, some c2, some e1, some e2,
        some f1, some f2, some g1, some g2 =>
      match (match frac.data with
             | [] => some 0
             | ['.', u1, u2, u3, u4, u5, u6] =>
               match digitVal? u1, digitVal? u2, digitVal? u3, digitVal? u4, digitVal? u5,
                     digitVal? u6 with
               | some v1, some v2, some v3, some v4, some v5, some v6 =>
                 some (v1 * 100000 + v2 * 10000 + v3 * 1000 + v4 * 100 + v5 * 10 + v6)
               | _, _, _, _, _, _ => none
             | _ => none) with
      | some us =>
        let t : DateTime := ⟨a1 * 1000 + a2 * 100 + a3 * 10 + a4, b1 * 10 + b2, c1 * 10 + c2,
          e1 * 10 + e2, f1 * 10 + f2, g1 * 10 + g2, us⟩
        if t.valid then some t else none
      | none => none
    | _, _, _, _, _, _, _, _, _, _, _, _, _, _ => none

/-- The contract record assembled by `get_contract_data` (`src/main.py`,
lines 366-402): a flat mapping of string/boolean fields, here a structure
with one field per dictionary key, in source order. -/
structure ContractData where
  employer_name : String
  employer_address : String
  employer_id : String
  employee_name : String
  employee_address : String
  employee_id : String
  contract_date : String
  start_date : String
  contract_type : String
  is_temporary : Bool
  temp_contract_reason : String
  end_date : String
  probation_period : String
  job_title : String
  main_duties : String
  work_location : String
  salary : String
  salary_basis : String
  salary_payment_date : String
  working_hours : String
  annual_leave : String
  notice_period : String
  collective_agreement : String
  has_collective_agreement : Bool
  muut_ehdot : String
deriving DecidableEq, Repr

/-- The state of the input widgets of `TyosopimusApp`. Text widgets hold a
`String`; the three `QDateEdit`s hold a `Date`; `temporary_checked` is the
exclusive radio-button pair (`True` = `temporary_contract_radio` checked,
`False` = `permanent_contract_radio` checked — the `QButtonGroup` keeps
exactly one checked); `collective_checked` is the checkbox. -/
structure FormState where
  employer_name : String
  employer_address : String
  employer_id : String
  employee_name : String
  employee_address : String
  employee_id : String
  contract_date : Date
  start_date : Date
  temporary_checked : Bool
  temp_contract_reason : String
  end_date : Date
  probation_period : String
  job_title : String
  main_duties : String
  work_location : String
  salary : String
  salary_basis : String
  salary_payment_date : String
  working_hours : String
  annual_leave : String
  notice_period : String
  collective_agreement : String
  collective_checked : Bool
  muut_ehdot : String
deriving DecidableEq, Repr

/-- Embedding of `TyosopimusApp.get_contract_data` (`src/main.py` 366-402):
collect all contract data from the input fields as a record. -/
def get_contract_data (s : FormState) : ContractData :=
  { employer_name := s.employer_name
    employer_address := s.employer_address
    employer_id := s.employer_id
    employee_name := s.employee_name
    employee_address := s.employee_address
    employee_id := s.employee_id
    contract_date := s.contract_date.format
    start_date := s.start_date.format
    contract_type := if s.temporary_checked then "määräaikainen" else "toistaiseksi voimassa oleva"
    is_temporary := s.temporary_checked
    temp_contract_reason := if s.temporary_checked then s.temp_contract_reason else ""
    end_date := if s.temporary_checked then s.end_date.format else ""
    probation_period := s.probation_period
    job_title := s.job_title
    main_duties := s.main_duties
    work_location := s.work_location
    salary := s.salary
    salary_basis := s.salary_basis
    salary_payment_date := s.salary_payment_date
    working_hours := s.working_hours
    annual_leave := s.annual_leave
    notice_period := s.notice_period
    collective_agreement := s.collective_agreement
    has_collective_agreement := s.collective_checked
    muut_ehdot := s.muut_ehdot }

/-- Embedding of `TyosopimusApp.populate_fields` (`src/main.py` 404-454) on a
record carrying every schema key (which is the case for every record written
by `save_contract`, so the `data.get(key, default)` fallbacks of the source
never fire).  `today` is `QDate.currentDate()`.  A date string is parsed with
`QDate.fromString(s, "dd.MM.yyyy")`; following Qt, `setDate` on the invalid
`QDate` (`Date.parse = none`) leaves the widget unchanged.  When
`is_temporary` is false the source does not touch the temporary-contract
widgets, and the trailing `toggle_contract_type` / `toggle_collective_agreement`
calls only change widget visibility, which is not part of `FormState`. -/
def populate_fields (today : Date) (s : FormState) (data : ContractData) : FormState :=
  let s := { s with
    employer_name := data.employer_name
    employer_address := data.employer_address
    employer_id := data.employer_id
    employee_name := data.employee_name
    employee_address := data.employee_address
    employee_id := data.employee_id }
  let s := if data.contract_date ≠ "" then
      match Date.parse data.contract_date with
      | some d => { s with contract_date := d }
      | none => s
    else { s with contract_date := today }
  let s := if data.start_date ≠ "" then
      match Date.parse data.start_date with
      | some d => { s with start_date := d }
      | none => s
    else { s with start_date := today }
  let s := if data.is_temporary then
      let s := { s with temporary_checked := true, temp_contract_reason := data.temp_contract_reason }
      if data.end_date ≠ "" then
        match Date.parse data.end_date with
        | some d => { s with end_date := d }
        | none => s
      else s
    else { s with temporary_checked := false }
  { s with
    probation_period := data.probation_period
    job_title := data.job_title
    main_duties := data.main_duties
    work_location := data.work_location
    salary := data.salary
    salary_basis := data.salary_basis
    salary_payment_date := data.salary_payment_date
    working_hours := data.working_hours
    annual_leave := data.annual_leave
    notice_period := data.notice_period
    collective_agreement := data.collective_agreement
    collective_checked := data.has_collective_agreement
    muut_ehdot := data.muut_ehdot }

/-- A record as persisted by `save_contract`: the form record plus the two
bookkeeping keys stamped at save time. -/
structure SavedContract where
  base : ContractData
  created_at : String
  display_name : String
deriving DecidableEq, Repr

/-- Model of Python `str.strip()` with no argument: remove leading and
trailing whitespace (and nothing else). -/
def pyStrip (s : String) : String :=
  String.mk (((s.data.dropWhile Char.isWhitespace).reverse.dropWhile Char.isWhitespace).reverse)

/-- Embedding of the name sanitization in `save_contract` (`src/main.py`
471-472): `"".join(c for c in name if c.isalnum() or c in (' ', '-', '_')).strip()`.
`str.isalnum` is modelled by `Char.isAlphanum` (they agree on ASCII, which is
all the claims exercise). -/
def sanitizeName (s : String) : String :=
  pyStrip (String.mk (s.data.filter fun c => c.isAlphanum || c = ' ' || c = '-' || c = '_'))

/-- Embedding of the data/filename construction of
`TyosopimusApp.save_contract` (`src/main.py` 456-508): stamp `created_at`
(`timestamp.isoformat()`) and `display_name`, and build the timestamped
filename from the sanitized party names.  `now` is `datetime.now()`.
Directory handling, the overwrite prompt and the catalog refresh are I/O
around this pure core and are not modelled.  Returns
`(contract_filename, saved data)`. -/
def save_contract (now : DateTime) (s : FormState) : String × SavedContract :=
  let data := get_contract_data s
  let saved : SavedContract :=
    { base := data
      created_at := now.isoformat
      display_name := data.employee_name ++ " - " ++ data.employer_name }
  let safe_employee := sanitizeName data.employee_name
  let safe_employer := sanitizeName data.employer_name
  (safe_employee ++ "_" ++ safe_employer ++ "_" ++ now.stamp ++ ".json", saved)

/-- Embedding of `muut_ehdot_html = data['muut_ehdot'].replace("\\n", "<br />")`
(`src/main.py` 701).  NB: in the Python source the pattern is the *escaped*
two-character sequence backslash-`n`, not a newline character, and that is
reproduced here exactly. -/
def muut_ehdot_html (data : ContractData) : String :=
  pyReplace data.muut_ehdot "\\n" "<br />"

/-- Embedding of `temp_contract_section` (`src/main.py` 704-710): built only
when the contract is temporary. -/
def temp_contract_section (data : ContractData) : String :=
  if data.is_temporary then
    "\n        <p><b>Määräaikaisuuden peruste:</b> " ++ data.temp_contract_reason ++ "</p>"
      ++ "\n        <p><b>Määräaikaisuus päättyy:</b> " ++ data.end_date ++ "</p>"
  else ""

/-- Embedding of `probation_section` (`src/main.py` 705, 711-714): built only
for permanent contracts. -/
def probation_section (data : ContractData) : String :=
  if data.is_temporary then ""
  else "\n        <p><b>Koeaika:</b> " ++ data.probation_period ++ "</p>"

/-- The constant head of the preview template (`src/main.py` 716-731 up to the
first interpolation).  Literal braces of the CSS (written `{{`/`}}` in the
Python f-string) appear here escaped as `\x7b`/`\x7d`, and apostrophes as
`\x27`. -/
def previewHead : String :=
  "\n        <!DOCTYPE HTML PUBLIC \"-//W3C//DTD HTML 4.0//EN\" \"http://www.w3.org/TR/REC-html40/strict.dtd\">\n"
  ++ "        <html><head><meta name=\"qrichtext\" content=\"1\" /><style type=\"text/css\">\n"
  ++ "        p, li \x7b white-space: pre-wrap; \x7d\n"
  ++ "        body \x7b font-family: \x27Helvetica\x27, \x27Arial\x27, \x27sans-serif\x27; font-size: 12pt; \x7d\n"
  ++ "        h1 \x7b font-size: 16pt; font-weight: bold; margin-bottom: 10px; \x7d\n"
  ++ "        h2 \x7b font-size: 14pt; font-weight: bold; margin-top: 15px; margin-bottom: 5px; \x7d\n"
  ++ "        h3 \x7b font-size: 12pt; font-weight: bold; margin-top: 10px; margin-bottom: 5px; \x7d\n"
  ++ "        hr \x7b margin-top: 10px; margin-bottom: 10px; \x7d\n"
  ++ "        table \x7b width: 100%; border-collapse: collapse; margin-top: 20px; \x7d\n"
  ++ "        td \x7b padding: 5px; vertical-align: top; \x7d\n"
  ++ "        .contract-date \x7b text-align: right; font-size: 10pt; margin-bottom: 20px; \x7d\n"
  ++ "        </style></head><body>\n"
  ++ "        <h2 style=\"text-align: center;\">TYÖSOPIMUS</h2>\n"
  ++ "        <p class=\"contract-date\"><b>Sopimuspäivämäärä:</b> "

/-- The preview markup from the start of the template up to and including the
`<p>` that receives the free-text `muut_ehdot_html` (`src/main.py` 716-769). -/
def previewBeforeMuut (data : ContractData) : String :=
  previewHead ++ data.contract_date ++ "</p>\n"
  ++ "        <hr />\n\n"
  ++ "        <h3>1. Työnantaja</h3>\n"
  ++ "        <p><b>Nimi:</b> " ++ data.employer_name ++ "</p>\n"
  ++ "        <p><b>Osoite:</b> " ++ data.employer_address ++ "</p>\n"
  ++ "        <p><b>Y-tunnus:</b> " ++ data.employer_id ++ "</p>\n\n"
  ++ "        <h3>2. Työntekijä</h3>\n"
  ++ "        <p><b>Nimi:</b> " ++ data.employee_name ++ "</p>\n"
  ++ "        <p><b>Osoite:</b> " ++ data.employee_address ++ "</p>\n"
  ++ "        <p><b>Henkilötunnus:</b> " ++ data.employee_id ++ "</p>\n\n"
  ++ "        <h3>3. Työsuhteen alkaminen ja luonne</h3>\n"
  ++ "        <p><b>Työ alkaa:</b> " ++ data.start_date ++ "</p>\n"
  ++ "        <p><b>Sopimuksen luonne:</b> " ++ data.contract_type ++ "</p>"
  ++ temp_contract_section data ++ probation_section data ++ "\n\n"
  ++ "        <h3>4. Työtehtävät ja työntekopaikka</h3>\n"
  ++ "        <p><b>Tehtävänimike:</b> " ++ data.job_title ++ "</p>\n"
  ++ "        <p><b>Pääasialliset työtehtävät:</b> " ++ data.main_duties ++ "</p>\n"
  ++ "        <p><b>Työntekopaikka:</b> " ++ data.work_location ++ "</p>\n\n"
  ++ "        <h3>5. Palkkaus</h3>\n"
  ++ "        <p><b>Työstä maksettava palkka tai muu vastike:</b> " ++ data.salary ++ "</p>\n"
  ++ "        <p><b>Palkan määräytymisen peruste:</b> " ++ data.salary_basis ++ "</p>\n"
  ++ "        <p><b>Palkanmaksukausi ja -päivä:</b> " ++ data.salary_payment_date ++ "</p>\n\n"
  ++ "        <h3>6. Työaika</h3>\n"
  ++ "        <p><b>Työaika:</b> " ++ data.working_hours ++ "</p>\n\n"
  ++ "        <h3>7. Vuosiloma</h3>\n"
  ++ "        <p><b>Vuosiloma määräytyy:</b> " ++ data.annual_leave ++ "</p>\n\n"
  ++ "        <h3>8. Irtisanomisaika</h3>\n"
  ++ "        <p><b>Irtisanomisaika määräytyy:</b> " ++ data.notice_period ++ "</p>\n\n"
  ++ "        "
  ++ (if data.has_collective_agreement then
        "<h3>9. Sovellettava työehtosopimus</h3><p><b>Työsuhteessa noudatetaan:</b> "
          ++ data.collective_agreement ++ "</p>"
      else "")
  ++ "\n\n"
  ++ "        <h3>" ++ (if data.has_collective_agreement then "10" else "9") ++ ". Muut ehdot</h3>\n"
  ++ "        <p>"

/-- The preview markup following the free-text paragraph: signature block and
document close (`src/main.py` 769-788). -/
def previewAfterMuut (data : ContractData) : String :=
  "</p>\n"
  ++ "        <br><br>\n"
  ++ "        <p><b>Allekirjoitukset</b></p>\n"
  ++ "        <br><br><br>\n"
  ++ "        <table border=\"0\" width=\"100%\">\n"
  ++ "            <tr>\n"
  ++ "                <td width=\"50%\">_________________________</td>\n"
  ++ "                <td width=\"50%\">_________________________</td>\n"
  ++ "            </tr>\n"
  ++ "            <tr>\n"
  ++ "                <td>" ++ data.employer_name ++ "</td>\n"
  ++ "                <td>" ++ data.employee_name ++ "</td>\n"
  ++ "            </tr>\n"
  ++ "            <tr>\n"
  ++ "                <td>(Työnantaja)</td>\n"
  ++ "                <td>(Työntekijä)</td>\n"
  ++ "            </tr>\n"
  ++ "        </table>\n"
  ++ "        </body></html>\n"
  ++ "        "

/-- Embedding of the `html_content` f-string built by
`TyosopimusApp.update_preview` (`src/main.py` 696-789): the complete markup
handed to `preview_area.setHtml`. -/
def previewHtml (data : ContractData) : String :=
  previewBeforeMuut data ++ muut_ehdot_html data ++ previewAfterMuut data

/-- The numbered-section structure of the preview markup of `update_preview`
(`src/main.py` 729-769): for each `<h3>` heading of the template, the heading
text and the following `<p>` entries in template order, an entry being the
pair of its fixed label text and the interpolated field value (the free-text
section has an empty label). -/
def previewSections (data : ContractData) : List (String × List (String × String)) :=
  [("1. Työnantaja",
     [("<b>Nimi:</b> ", data.employer_name),
      ("<b>Osoite:</b> ", data.employer_address),
      ("<b>Y-tunnus:</b> ", data.employer_id)]),
   ("2. Työntekijä",
     [("<b>Nimi:</b> ", data.employee_name),
      ("<b>Osoite:</b> ", data.employee_address),
      ("<b>Henkilötunnus:</b> ", data.employee_id)]),
   ("3. Työsuhteen alkaminen ja luonne",
     [("<b>Työ alkaa:</b> ", data.start_date),
      ("<b>Sopimuksen luonne:</b> ", data.contract_type)]
     ++ (if data.is_temporary then
          [("<b>Määräaikaisuuden peruste:</b> ", data.temp_contract_reason),
           ("<b>Määräaikaisuus päättyy:</b> ", data.end_date)]
        else
          [("<b>Koeaika:</b> ", data.probation_period)])),
   ("4. Työtehtävät ja työntekopaikka",
     [("<b>Tehtävänimike:</b> ", data.job_title),
      ("<b>Pääasialliset työtehtävät:</b> ", data.main_duties),
      ("<b>Työntekopaikka:</b> ", data.work_location)]),
   ("5. Palkkaus",
     [("<b>Työstä maksettava palkka tai muu vastike:</b> ", data.salary),
      ("<b>Palkan määräytymisen peruste:</b> ", data.salary_basis),
      ("<b>Palkanmaksukausi ja -päivä:</b> ", data.salary_payment_date)]),
   ("6. Työaika", [("<b>Työaika:</b> ", data.working_hours)]),
   ("7. Vuosiloma", [("<b>Vuosiloma määräytyy:</b> ", data.annual_leave)]),
   ("8. Irtisanomisaika", [("<b>Irtisanomisaika määräytyy:</b> ", data.notice_period)])]
  ++ (if data.has_collective_agreement then
       [("9. Sovellettava työehtosopimus",
          [("<b>Työsuhteessa noudatetaan:</b> ", data.collective_agreement)])]
      else [])
  ++ [((if data.has_collective_agreement then "10" else "9") ++ ". Muut ehdot",
       [("", muut_ehdot_html data)])]

/-- Embedding of the `sections` block list built by
`TyosopimusApp.generate_pdf` (`src/main.py` 819-880): section titles with
their paragraph entries (label text, interpolated field value), including the
dynamically built employment section, the conditional collective-agreement
section, and the renumbered final free-text section.  Paragraph styles are
not modelled (every entry uses `styles['Normal']`). -/
def pdfSections (data : ContractData) : List (String × List (String × String)) :=
  [("1. Työnantaja",
     [("<b>Nimi:</b> ", data.employer_name),
      ("<b>Osoite:</b> ", data.employer_address),
      ("<b>Y-tunnus:</b> ", data.employer_id)]),
   ("2. Työntekijä",
     [("<b>Nimi:</b> ", data.employee_name),
      ("<b>Osoite:</b> ", data.employee_address),
      ("<b>Henkilötunnus:</b> ", data.employee_id)]),
   ("3. Työsuhteen alkaminen ja luonne",
     [("<b>Työ alkaa:</b> ", data.start_date),
      ("<b>Sopimuksen luonne:</b> ", data.contract_type)]
     ++ (if data.is_temporary then
          [("<b>Määräaikaisuuden peruste:</b> ", data.temp_contract_reason),
           ("<b>Määräaikaisuus päättyy:</b> ", data.end_date)]
        else
          [("<b>Koeaika:</b> ", data.probation_period)])),
   ("4. Työtehtävät ja työntekopaikka",
     [("<b>Tehtävänimike:</b> ", data.job_title),
      ("<b>Pääasialliset työtehtävät:</b> ", pyReplace data.main_duties "\n" "<br/>"),
      ("<b>Työntekopaikka:</b> ", data.work_location)]),
   ("5. Palkkaus",
     [("<b>Työstä maksettava palkka tai muu vastike:</b> ", data.salary),
      ("<b>Palkan määräytymisen peruste:</b> ", data.salary_basis),
      ("<b>Palkanmaksukausi ja -päivä:</b> ", data.salary_payment_date)]),
   ("6. Työaika", [("<b>Työaika:</b> ", data.working_hours)]),
   ("7. Vuosiloma", [("<b>Vuosiloma määräytyy:</b> ", data.annual_leave)]),
   ("8. Irtisanomisaika", [("<b>Irtisanomisaika määräytyy:</b> ", data.notice_period)])]
  ++ (if data.has_collective_agreement then
       [("9. Sovellettava työehtosopimus",
          [("<b>Työsuhteessa noudatetaan:</b> ", data.collective_agreement)])]
      else [])
  ++ [((if data.has_collective_agreement then "10" else "9") ++ ". Muut ehdot",
       [("", pyReplace data.muut_ehdot "\n" "<br/>")])]

/-- A JSON value at an object field of a scanned file, as far as
`TyosopimusApp` ever discriminates one: a string, or anything else
(`load_contracts` / `_get_sort_key` only ever read `created_at` as a string —
any non-string raises `TypeError` in `fromisoformat`, which is caught). -/
inductive JsonAtom where
  | str (s : String)
  | other
deriving DecidableEq, Repr

/-- A parsed JSON document as far as `TyosopimusApp` discriminates one: a
JSON object (`dict`) with its fields, or any non-object value.  Nested
structure below the top-level fields is never inspected by the source
(`_is_contract_file` checks `isinstance(data, dict)` and key membership,
`_get_sort_key` reads the `created_at` value), so field values are
`JsonAtom`s. -/
inductive PyJson where
  | obj (fields : List (String × JsonAtom))
  | nonObj
deriving DecidableEq, Repr

/-- Embedding of `TyosopimusApp._is_contract_file` (`src/main.py` 633-641):
`isinstance(data, dict) and any(field in data for field in key_fields)` with
`key_fields = ['employee_name', 'employer_name', 'contract_date']`. -/
def is_contract_file (data : PyJson) : Bool :=
  match data with
  | .obj fields =>
    ["employee_name", "employer_name", "contract_date"].any fun k =>
      fields.any fun kv => kv.1 == k
  | .nonObj => false

/-- Embedding of the directory-scan loop of `TyosopimusApp.load_contracts`
(`src/main.py` 530-558).  The input list is the concatenated `os.listdir`
output of the searched directories, in scan order; each element is a filename
paired with the result of parsing its contents (`none` models
`JSONDecodeError` / `OSError` / `UnicodeDecodeError`, all skipped silently).
A file is appended to the accumulated catalog when its name ends in `.json`,
it parses, `_is_contract_file` accepts it, and its stem is not already
present (`contract_name not in self.contracts`). -/
def scanContracts (files : List (String × Option PyJson)) : List (String × PyJson) :=
  go [] files
where
  /-- The loop with the accumulated `(contract_name, contract_data)` list. -/
  go (acc : List (String × PyJson)) : List (String × Option PyJson) → List (String × PyJson)
  | [] => acc
  | (name, content) :: rest =>
    if endsJson name then
      match content with
      | some d =>
        if is_contract_file d && acc.all (fun e => e.1 != stemOf name) then
          go (acc ++ [(stemOf name, d)]) rest
        else
          go acc rest
      | none => go acc rest
    else go acc rest

/-- `datetime(1900, 1, 1)`, the fallback sort key of `_get_sort_key`
(`src/main.py` 631). -/
def fallbackKey : Nat :=
  DateTime.key ⟨1900, 1, 1, 0, 0, 0, 0⟩

/-- Decimal value of a digit-character list. -/
def digitsToNat (l : List Char) : Nat :=
  l.foldl (fun a c => a * 10 + (c.toNat - 48)) 0

/-- Does the list start with the pattern `\d{8}_\d{6}`?  Returns the two
digit groups. -/
def matchStamp (l : List Char) : Option (List Char × List Char) :=
  let d8 := l.take 8
  if d8.length = 8 ∧ d8.all Char.isDigit then
    match l.drop 8 with
    | '_' :: r2 =>
      let d6 := r2.take 6
      if d6.length = 6 ∧ d6.all Char.isDigit then some (d8, d6) else none
    | _ => none
  else none

/-- Embedding of `re.search(r'(\d{8})_(\d{6})', contract_name)`: the leftmost
match of the fixed-width pattern. -/
def findStamp : List Char → Option (List Char × List Char)
  | [] => none
  | c :: rest =>
    match matchStamp (c :: rest) with
    | some r => some r
    | none => findStamp rest

/-- Embedding of `datetime.strptime(match.group(1) + match.group(2),
"%Y%m%d%H%M%S")` on the two digit groups: `none` models the `ValueError`
raised (and caught) for out-of-range components. -/
def stampToKey (d8 d6 : List Char) : Option Nat :=
  let t : DateTime :=
    { year := digitsToNat (d8.take 4)
      month := digitsToNat ((d8.drop 4).take 2)
      day := digitsToNat (d8.drop 6)
      hour := digitsToNat (d6.take 2)
      minute := digitsToNat ((d6.drop 2).take 2)
      second := digitsToNat (d6.drop 4)
      usec := 0 }
  if t.valid then some t.key else none

/-- The `created_at` route of `_get_sort_key` (`src/main.py` 613-618): the
key of the parsed `created_at` field when it is present, a string, and
`fromisoformat` succeeds; `none` when the attempt falls through (key absent,
non-string `TypeError`, or unparseable `ValueError`, all caught). -/
def createdKey (data : PyJson) : Option Nat :=
  match data with
  | .obj fields =>
    match fields.lookup "created_at" with
    | some (.str s) => (parseIso s).map DateTime.key
    | _ => none
  | .nonObj => none

/-- The filename route of `_get_sort_key` (`src/main.py` 620-628): the key of
the `YYYYMMDD_HHMMSS` token embedded in the contract name, when a token is
found and `strptime` accepts it. -/
def stampKey (name : String) : Option Nat :=
  (findStamp name.data).bind fun g => stampToKey g.1 g.2

/-- Embedding of `TyosopimusApp._get_sort_key` (`src/main.py` 607-631): the
parsed `created_at` timestamp when present as a parseable string; else the
`YYYYMMDD_HHMMSS` token of the contract name when present and a valid
timestamp; else `datetime(1900, 1, 1)`. -/
def get_sort_key (name : String) (data : PyJson) : Nat :=
  (createdKey data).getD ((stampKey name).getD fallbackKey)

/-- The sorting stage of `load_contracts` (`src/main.py` 562-564):
`sorted(self.contract_files, key=lambda x: self._get_sort_key(x[0]),
reverse=True)` — a stable descending sort by the per-entry key. -/
def catalogSort (entries : List (String × PyJson)) : List (String × PyJson) :=
  stableSortBy (fun a b => decide (get_sort_key b.1 b.2 ≤ get_sort_key a.1 a.2)) entries

/-- Embedding of the catalog construction of `TyosopimusApp.load_contracts`
(`src/main.py` 510-568): the directory scan followed by the stable descending
sort by `_get_sort_key`. -/
def load_contracts (files : List (String × Option PyJson)) : List (String × PyJson) :=
  catalogSort (scanContracts files)

/-- Does some section of `secs` contain a paragraph entry whose fixed label
text is exactly `label`?  Labels are template text, so this is insensitive to
interpolated field values. -/
def hasEntryLabel (secs : List (String × List (String × String))) (label : String) : Bool :=
  secs.any fun sec => sec.2.any fun e => e.1 == label

/-- Does some section of `secs` carry exactly the heading text `t`? -/
def hasTitle (secs : List (String × List (String × String))) (t : String) : Bool :=
  secs.any fun sec => sec.1 == t

/-- The numeric prefix of the heading of the last section of `secs`. -/
def lastTitleNumber (secs : List (String × List (String × String))) : Nat :=
  digitsToNat ((((secs.getLast?).map Prod.fst).getD "").data.takeWhile Char.isDigit)

/-- Number of occurrences of the character `c` in `s`. -/
def countChar (c : Char) (s : String) : Nat :=
  s.data.count c

/-- The regular expression `lead\d\x7b8\x7d_\d\x7b6\x7d\.json` as a full-match
predicate: `s` is `lead`, then eight digits, an underscore, six digits and
the `.json` extension. -/
def matchesNamePattern (leadText : String) (s : String) : Prop :=
  ∃ d8 d6 : List Char, d8.length = 8 ∧ d8.all Char.isDigit = true ∧
    d6.length = 6 ∧ d6.all Char.isDigit = true ∧
    s.data = leadText.data ++ d8 ++ '_' :: (d6 ++ ".json".data)

/-- A contract record with every text field empty, a permanent contract and
no collective agreement: the record of a freshly cleared form. -/
def emptyRecord : ContractData :=
  { employer_name := "", employer_address := "", employer_id := "",
    employee_name := "", employee_address := "", employee_id := "",
    contract_date := "", start_date := "", contract_type := "", is_temporary := false,
    temp_contract_reason := "", end_date := "", probation_period := "",
    job_title := "", main_duties := "", work_location := "",
    salary := "", salary_basis := "", salary_payment_date := "",
    working_hours := "", annual_leave := "", notice_period := "",
    collective_agreement := "", has_collective_agreement := false, muut_ehdot := "" }

/-- A temporary-contract record. -/
def tempRecord : ContractData :=
  { emptyRecord with
    is_temporary := true
    contract_type := "määräaikainen"
    temp_contract_reason := "Sijaisuus"
    end_date := "31.12.2025" }

/-- A record with the collective-agreement gate enabled. -/
def collRecord : ContractData :=
  { emptyRecord with
    has_collective_agreement := true
    collective_agreement := "Teknologiateollisuuden TES" }

/-- An empty form state (text fields cleared, permanent contract). -/
def blankForm : FormState :=
  { employer_name := "", employer_address := "", employer_id := "",
    employee_name := "", employee_address := "", employee_id := "",
    contract_date := ⟨2025, 1, 1⟩, start_date := ⟨2025, 1, 1⟩,
    temporary_checked := false, temp_contract_reason := "", end_date := ⟨2026, 1, 1⟩,
    probation_period := "6 kuukautta", job_title := "", main_duties := "",
    work_location := "", salary := "", salary_basis := "",
    salary_payment_date := "kuukauden 15. päivä", working_hours := "37,5 tuntia / viikko",
    annual_leave := "vuosilomalain mukaan", notice_period := "työsopimuslain mukaan",
    collective_agreement := "mahdollinen työehtosopimus", collective_checked := false,
    muut_ehdot := "" }

/-- A filled form state for a temporary contract. -/
def sampleForm : FormState :=
  { blankForm with
    employer_name := "Firma Oy"
    employee_name := "Matti Virtanen"
    contract_date := ⟨2025, 8, 1⟩
    start_date := ⟨2025, 8, 15⟩
    temporary_checked := true
    temp_contract_reason := "Sijaisuus"
    end_date := ⟨2026, 8, 14⟩
    salary := "4000"
    muut_ehdot := "Etätyömahdollisuus." }

/-- A form state holding the scenario names of the spec. -/
def c4Form : FormState :=
  { blankForm with
    employer_name := "Firma Oy"
    employee_name := "Matti Virtanen"
    contract_date := ⟨2025, 8, 1⟩
    start_date := ⟨2025, 8, 15⟩
    salary := "4000" }

/-- A fixed save instant, `2025-08-15 12:00:00`. -/
def c4Now : DateTime := ⟨2025, 8, 15, 12, 0, 0, 0⟩

/-- A fixed current date used when exercising `populate_fields`. -/
def sampleToday : Date := ⟨2025, 9, 1⟩

/-- A contract JSON whose `created_at` predates 1900. -/
def oldJson : PyJson :=
  .obj [("employee_name", .str "Vanha"), ("created_at", .str "1899-06-01T00:00:00")]

/-- A legacy contract JSON with no `created_at` (and an untimestamped name). -/
def legacyJson : PyJson := .obj [("employee_name", .str "Legacy")]

/-- Two distinct qualifying contract JSON objects. -/
def dupJsonA : PyJson := .obj [("employee_name", .str "A")]

/-- A second qualifying contract JSON object, distinct from `dupJsonA`. -/
def dupJsonB : PyJson := .obj [("employee_name", .str "B")]

/-- Catalog entry stamped 2020. -/
def csE1 : String × PyJson :=
  ("a1", .obj [("employee_name", .str "A1"), ("created_at", .str "2020-01-01T00:00:00")])

/-- Catalog entry stamped 2021. -/
def csE2 : String × PyJson :=
  ("a2", .obj [("employee_name", .str "A2"), ("created_at", .str "2021-01-01T00:00:00")])

/-- Catalog entry stamped 2022. -/
def csE3 : String × PyJson :=
  ("a3", .obj [("employee_name", .str "A3"), ("created_at", .str "2022-01-01T00:00:00")])

/-- An untimestamped catalog entry. -/
def csU : String × PyJson := ("legacy", .obj [("employee_name", .str "U")])

theorem digitVal?_digitChar (n : Nat) : digitVal? (digitChar n) = some (n % 10) := by
  have h : n % 10 < 10 := Nat.mod_lt _ (by decide)
  unfold digitChar
  interval_cases h : n % 10 <;> simp_all [digitVal?]

theorem isDigit_digitChar (n : Nat) : (digitChar n).isDigit = true := by
  have h : n % 10 < 10 := Nat.mod_lt _ (by decide)
  unfold digitChar
  interval_cases h : n % 10 <;> simp_all

/-- If no character of `l` equals the head of the pattern, replacement leaves
`l` unchanged (for any fuel). -/
theorem replaceFromAux_eq_of_head_not_mem (p0 : Char) (pt rep : List Char) (fuel : Nat)
    (l : List Char) (h : p0 ∉ l) : replaceFromAux (p0 :: pt) rep fuel l = l := by
  induction fuel generalizing l with
  | zero => cases l <;> rfl
  | succ fuel ih =>
    match l with
    | [] => rfl
    | c :: rest =>
      have hc : c ≠ p0 := fun hcc => h (hcc ▸ List.mem_cons_self c rest)
      have hmatch : ¬((p0 :: pt) ≠ [] ∧ p0 :: pt = (c :: rest).take (p0 :: pt).length) := by
        rintro ⟨-, heq⟩
        simp only [List.length_cons, List.take_succ_cons] at heq
        exact hc (List.cons.injEq .. ▸ heq).1.symm
      rw [replaceFromAux, if_neg hmatch, ih rest (fun hm => h (List.mem_cons_of_mem _ hm))]

theorem replaceFrom_eq_of_head_not_mem (p0 : Char) (pt rep : List Char) (l : List Char)
    (h : p0 ∉ l) : replaceFrom (p0 :: pt) rep l = l :=
  replaceFromAux_eq_of_head_not_mem p0 pt rep l.length l h

theorem pyReplace_eq_of_head_not_mem (s : String) (p0 : Char) (pt rep : String)
    (h : p0 ∉ s.data) : pyReplace s (String.mk (p0 :: pt.data)) rep = s := by
  cases s with
  | mk data =>
    show String.mk (replaceFrom (p0 :: pt.data) rep.data data) = String.mk data
    rw [replaceFrom_eq_of_head_not_mem p0 pt.data rep.data data h]

theorem data_pad2 (n : Nat) : (pad2 n).data = [digitChar (n / 10), digitChar n] := rfl

theorem data_pad4 (n : Nat) :
    (pad4 n).data = [digitChar (n / 1000), digitChar (n / 100), digitChar (n / 10), digitChar n] :=
  rfl

theorem data_format (d : Date) :
    (Date.format d).data = [digitChar (d.day / 10), digitChar d.day, '.',
      digitChar (d.month / 10), digitChar d.month, '.',
      digitChar (d.year / 1000), digitChar (d.year / 100), digitChar (d.year / 10),
      digitChar d.year] := by
  simp [Date.format, String.data_append, data_pad2, data_pad4]

/-- `QDate` round trip: formatting a valid date with `dd.MM.yyyy` and parsing
the result with the same format recovers the date. -/
theorem Date.parse_format (d : Date) (h : d.valid = true) : Date.parse (Date.format d) = some d := by
  obtain ⟨y, m, dd⟩ := d
  have hv := h
  simp only [Date.valid, Bool.and_eq_true, decide_eq_true_eq] at h
  obtain ⟨⟨⟨⟨⟨hy1, hy⟩, hm1⟩, hm⟩, hd1⟩, hdd⟩ := h
  have hdm : daysInMonth y m ≤ 31 := by
    unfold daysInMonth
    split
    · split <;> omega
    · split <;> omega
  have hd : dd ≤ 31 := le_trans hdd hdm
  have e1 : dd / 10 % 10 * 10 + dd % 10 = dd := by omega
  have e2 : m / 10 % 10 * 10 + m % 10 = m := by omega
  have e3 : y / 1000 % 10 * 1000 + y / 100 % 10 * 100 + y / 10 % 10 * 10 + y % 10 = y := by
    omega
  simp only [Date.parse, data_format, digitVal?_digitChar, e1, e2, e3]
  simp [hv]

theorem Date.format_ne_empty (d : Date) : Date.format d ≠ "" := by
  intro h
  have h2 := congrArg String.data h
  rw [data_format] at h2
  simp at h2

theorem mem_insOrdered {le : α → α → Bool} {x a : α} {l : List α} :
    a ∈ insOrdered le x l ↔ a = x ∨ a ∈ l := by
  induction l with
  | nil => simp [insOrdered]
  | cons y ys ih =>
    simp only [insOrdered]
    split
    · simp [List.mem_cons]
    · simp only [List.mem_cons, ih]
      tauto

theorem pairwise_insOrdered (key : α → Nat) (x : α) (l : List α)
    (h : l.Pairwise (fun a b => key b ≤ key a)) :
    (insOrdered (fun a b => decide (key b ≤ key a)) x l).Pairwise
      (fun a b => key b ≤ key a) := by
  induction l with
  | nil => simp [insOrdered]
  | cons y ys ih =>
    rcases List.pairwise_cons.mp h with ⟨hy, hys⟩
    simp only [insOrdered]
    split
    case isTrue hc =>
      have hxy : key y ≤ key x := of_decide_eq_true hc
      refine List.pairwise_cons.mpr ⟨?_, h⟩
      intro b hb
      rcases List.mem_cons.mp hb with rfl | hbys
      · exact hxy
      · exact le_trans (hy b hbys) hxy
    case isFalse hc =>
      have hyx : key x ≤ key y :=
        Nat.le_of_not_le fun hh => hc (decide_eq_true hh)
      refine List.pairwise_cons.mpr ⟨?_, ih hys⟩
      intro b hb
      rcases mem_insOrdered.mp hb with rfl | hbys
      · exact hyx
      · exact hy b hbys

theorem pairwise_stableSortBy (key : α → Nat) (l : List α) :
    (stableSortBy (fun a b => decide (key b ≤ key a)) l).Pairwise
      (fun a b => key b ≤ key a) := by
  induction l with
  | nil => simp [stableSortBy]
  | cons x xs ih => exact pairwise_insOrdered key x _ ih

theorem mem_scan_go (fs : List (String × Option PyJson)) (acc : List (String × PyJson))
    (x : String) (h : x ∈ acc.map Prod.fst) :
    x ∈ (scanContracts.go acc fs).map Prod.fst := by
  induction fs generalizing acc with
  | nil => simpa [scanContracts.go] using h
  | cons f rest ih =>
    obtain ⟨name, content⟩ := f
    simp only [scanContracts.go]
    by_cases hj : endsJson name = true
    · rw [if_pos hj]
      cases content with
      | none => exact ih acc h
      | some d =>
        dsimp only
        by_cases hc : (is_contract_file d && acc.all fun e => e.1 != stemOf name) = true
        · rw [if_pos hc]
          refine ih _ ?_
          simp only [List.map_append, List.mem_append]
          exact Or.inl h
        · rw [if_neg hc]
          exact ih acc h
    · rw [if_neg hj]
      exact ih acc h

theorem not_mem_scan_go (fs : List (String × Option PyJson)) (acc : List (String × PyJson))
    (x : String) (hacc : x ∉ acc.map Prod.fst) (hfs : ∀ g ∈ fs, stemOf g.1 ≠ x) :
    x ∉ (scanContracts.go acc fs).map Prod.fst := by
  induction fs generalizing acc with
  | nil => simpa [scanContracts.go] using hacc
  | cons f rest ih =>
    obtain ⟨name, content⟩ := f
    have hname : stemOf name ≠ x := hfs (name, content) (List.mem_cons_self _ _)
    have hrest : ∀ g ∈ rest, stemOf g.1 ≠ x := fun g hg => hfs g (List.mem_cons_of_mem _ hg)
    simp only [scanContracts.go]
    by_cases hj : endsJson name = true
    · rw [if_pos hj]
      cases content with
      | none => exact ih acc hacc hrest
      | some d =>
        dsimp only
        by_cases hc : (is_contract_file d && acc.all fun e => e.1 != stemOf name) = true
        · rw [if_pos hc]
          refine ih _ ?_ hrest
          simp only [List.map_append, List.mem_append]
          rintro (hm | hm)
          · exact hacc hm
          · simp only [List.map_cons, List.map_nil, List.mem_singleton] at hm
            exact hname hm.symm
        · rw [if_neg hc]
          exact ih acc hacc hrest
    · rw [if_neg hj]
      exact ih acc hacc hrest

theorem scan_go_middle (name : String) (c : Option PyJson)
    (post : List (String × Option PyJson)) (hjson : endsJson name = true)
    (hpost : ∀ g ∈ post, stemOf g.1 ≠ stemOf name)
    (pre : List (String × Option PyJson)) (acc : List (String × PyJson))
    (hpre : ∀ g ∈ pre, stemOf g.1 ≠ stemOf name)
    (hacc : stemOf name ∉ acc.map Prod.fst) :
    (stemOf name ∈ (scanContracts.go acc (pre ++ (name, c) :: post)).map Prod.fst ↔
      ∃ d, c = some d ∧ is_contract_file d = true) := by
  induction pre generalizing acc with
  | nil =>
    rw [List.nil_append]
    simp only [scanContracts.go]
    rw [if_pos hjson]
    cases c with
    | none =>
      simp only [reduceCtorEq, false_and, exists_false, iff_false]
      exact not_mem_scan_go post acc _ hacc hpost
    | some d =>
      dsimp only
      have hall : (acc.all fun e => e.1 != stemOf name) = true := by
        rw [List.all_eq_true]
        intro e he
        have hne : e.1 ≠ stemOf name := by
          intro hh
          exact hacc (hh ▸ List.mem_map_of_mem Prod.fst he)
        simpa [bne]
      cases hd : is_contract_file d with
      | true =>
        rw [hall]
        simp only [Bool.and_self, if_true]
        constructor
        · intro _
          exact ⟨d, rfl, hd⟩
        · intro _
          refine mem_scan_go post _ _ ?_
          simp
      | false =>
        simp only [Bool.false_and]
        rw [if_neg (by simp : ¬ (false = true))]
        constructor
        · intro hmem
          exact absurd hmem (not_mem_scan_go post acc _ hacc hpost)
        · rintro ⟨d', hd', hcf⟩
          cases hd'
          rw [hd] at hcf
          exact absurd hcf (by simp)
  | cons g pre' ih =>
    obtain ⟨gname, gcontent⟩ := g
    have hg : stemOf gname ≠ stemOf name := hpre (gname, gcontent) (List.mem_cons_self _ _)
    have hpre' : ∀ g ∈ pre', stemOf g.1 ≠ stemOf name :=
      fun g hgm => hpre g (List.mem_cons_of_mem _ hgm)
    rw [List.cons_append]
    simp only [scanContracts.go]
    by_cases hj : endsJson gname = true
    · rw [if_pos hj]
      cases gcontent with
      | none => exact ih acc hpre' hacc
      | some d =>
        dsimp only
        by_cases hc : (is_contract_file d && acc.all fun e => e.1 != stemOf gname) = true
        · rw [if_pos hc]
          refine ih _ hpre' ?_
          simp only [List.map_append, List.mem_append]
          rintro (hm | hm)
          · exact hacc hm
          · simp only [List.map_cons, List.map_nil, List.mem_singleton] at hm
            exact hg hm.symm
        · rw [if_neg hc]
          exact ih acc hpre' hacc
    · rw [if_neg hj]
      exact ih acc hpre' hacc

/-- C1: for every contract record collected from the form by
`get_contract_data` and saved via `save_contract`, re-populating the form
from the saved record via `populate_fields` and re-reading with
`get_contract_data` yields a record in which every field value equals the
original (the added `created_at` / `display_name` bookkeeping fields live
next to the record and are ignored by `populate_fields`).  The hypotheses
record that the three date widgets hold valid `QDate` values, which every
reachable form state does. -/
theorem C1_round_trip (s s0 : FormState) (now : DateTime) (today : Date)
    (h1 : s.contract_date.valid = true) (h2 : s.start_date.valid = true)
    (h3 : s.end_date.valid = true) :
    get_contract_data (populate_fields today s0 (save_contract now s).2.base) =
      get_contract_data s := by
  have hb : (save_contract now s).2.base = get_contract_data s := rfl
  rw [hb]
  cases ht : s.temporary_checked <;>
    simp [populate_fields, get_contract_data, ht, Date.parse_format _ h1, Date.parse_format _ h2,
      Date.parse_format _ h3, Date.format_ne_empty]

theorem C1_round_trip_witness :
    get_contract_data (populate_fields sampleToday blankForm
        (save_contract c4Now sampleForm).2.base) =
      get_contract_data sampleForm :=
  C1_round_trip sampleForm blankForm c4Now sampleToday (by decide) (by decide) (by decide)

/-- C2: for every record, when `is_temporary` is true both the preview
section structure of `update_preview` and the export block list of
`generate_pdf` contain the fixed-term-reason and end-date entries and no
probation entry, and when `is_temporary` is false they contain the probation
entry and neither fixed-term entry. -/
theorem C2_mutual_exclusivity (r : ContractData) :
    (r.is_temporary = true →
      hasEntryLabel (previewSections r) "<b>Määräaikaisuuden peruste:</b> " = true ∧
      hasEntryLabel (previewSections r) "<b>Määräaikaisuus päättyy:</b> " = true ∧
      hasEntryLabel (previewSections r) "<b>Koeaika:</b> " = false ∧
      hasEntryLabel (pdfSections r) "<b>Määräaikaisuuden peruste:</b> " = true ∧
      hasEntryLabel (pdfSections r) "<b>Määräaikaisuus päättyy:</b> " = true ∧
      hasEntryLabel (pdfSections r) "<b>Koeaika:</b> " = false) ∧
    (r.is_temporary = false →
      hasEntryLabel (previewSections r) "<b>Koeaika:</b> " = true ∧
      hasEntryLabel (previewSections r) "<b>Määräaikaisuuden peruste:</b> " = false ∧
      hasEntryLabel (previewSections r) "<b>Määräaikaisuus päättyy:</b> " = false ∧
      hasEntryLabel (pdfSections r) "<b>Koeaika:</b> " = true ∧
      hasEntryLabel (pdfSections r) "<b>Määräaikaisuuden peruste:</b> " = false ∧
      hasEntryLabel (pdfSections r) "<b>Määräaikaisuus päättyy:</b> " = false) := by
  refine ⟨fun h => ?_, fun h => ?_⟩ <;>
    cases hc : r.has_collective_agreement <;>
      simp [hasEntryLabel, previewSections, pdfSections, h, hc]

theorem C2_mutual_exclusivity_witness :
    hasEntryLabel (previewSections tempRecord) "<b>Määräaikaisuuden peruste:</b> " = true ∧
    hasEntryLabel (previewSections tempRecord) "<b>Määräaikaisuus päättyy:</b> " = true ∧
    hasEntryLabel (previewSections tempRecord) "<b>Koeaika:</b> " = false ∧
    hasEntryLabel (pdfSections tempRecord) "<b>Määräaikaisuuden peruste:</b> " = true ∧
    hasEntryLabel (pdfSections tempRecord) "<b>Määräaikaisuus päättyy:</b> " = true ∧
    hasEntryLabel (pdfSections tempRecord) "<b>Koeaika:</b> " = false :=
  (C2_mutual_exclusivity tempRecord).1 rfl

/-- C3: for every record, when `has_collective_agreement` is true the
collective-agreement section appears at its fixed position (ninth section) in
both the preview section structure and the export block list, and the final
free-text section is numbered exactly one higher than when the gate is
false; when the gate is false the collective-agreement section is absent
from both outputs. -/
theorem C3_collective_numbering (r : ContractData) :
    (r.has_collective_agreement = true →
      (previewSections r)[8]? = some ("9. Sovellettava työehtosopimus",
        [("<b>Työsuhteessa noudatetaan:</b> ", r.collective_agreement)]) ∧
      (pdfSections r)[8]? = some ("9. Sovellettava työehtosopimus",
        [("<b>Työsuhteessa noudatetaan:</b> ", r.collective_agreement)]) ∧
      lastTitleNumber (previewSections r) =
        lastTitleNumber (previewSections { r with has_collective_agreement := false }) + 1 ∧
      lastTitleNumber (pdfSections r) =
        lastTitleNumber (pdfSections { r with has_collective_agreement := false }) + 1) ∧
    (r.has_collective_agreement = false →
      hasTitle (previewSections r) "9. Sovellettava työehtosopimus" = false ∧
      hasTitle (pdfSections r) "9. Sovellettava työehtosopimus" = false) := by
  constructor <;> intro h <;>
    simp [previewSections, pdfSections, h, hasTitle, lastTitleNumber, digitsToNat]

theorem C3_collective_numbering_witness :
    (previewSections collRecord)[8]? = some ("9. Sovellettava työehtosopimus",
      [("<b>Työsuhteessa noudatetaan:</b> ", collRecord.collective_agreement)]) ∧
    (pdfSections collRecord)[8]? = some ("9. Sovellettava työehtosopimus",
      [("<b>Työsuhteessa noudatetaan:</b> ", collRecord.collective_agreement)]) ∧
    lastTitleNumber (previewSections collRecord) =
      lastTitleNumber (previewSections { collRecord with has_collective_agreement := false }) + 1 ∧
    lastTitleNumber (pdfSections collRecord) =
      lastTitleNumber (pdfSections { collRecord with has_collective_agreement := false }) + 1 :=
  (C3_collective_numbering collRecord).1 rfl

/-- C4 counterexample: saving the record with employee `Matti Virtanen` and
employer `Firma Oy` produces the filename
`Matti Virtanen_Firma Oy_20250815_120000.json`, which does not match the
claimed pattern `MattiVirtanen_FirmaOy_XXXXXXXX_XXXXXX.json`: the
sanitization only trims surrounding whitespace and keeps interior spaces. -/
theorem C4_counterexample :
    (save_contract c4Now c4Form).1 = "Matti Virtanen_Firma Oy_20250815_120000.json" ∧
    ¬ matchesNamePattern "MattiVirtanen_FirmaOy_" (save_contract c4Now c4Form).1 := by
  constructor
  · decide
  · rintro ⟨d8, d6, h8, -, -, -, heq⟩
    have hname : (save_contract c4Now c4Form).1 =
        "Matti Virtanen_Firma Oy_20250815_120000.json" := by decide
    rw [hname, List.append_assoc] at heq
    have h22 := congrArg (List.take 22) heq
    rw [List.take_append_of_le_length (by decide)] at h22
    revert h22
    decide

/-- C4 (amended): saving a record with employee `Matti Virtanen` and employer
`Firma Oy` yields a filename matching
`Matti Virtanen_Firma Oy_\d\x7b8\x7d_\d\x7b6\x7d\.json`: sanitization keeps
alphanumerics, space, dash and underscore, trims only surrounding whitespace
(interior spaces are preserved) and preserves letter case. -/
theorem C4_amended_filename (s : FormState) (now : DateTime)
    (he : s.employee_name = "Matti Virtanen") (hr : s.employer_name = "Firma Oy") :
    matchesNamePattern "Matti Virtanen_Firma Oy_" (save_contract now s).1 := by
  refine ⟨[digitChar (now.year / 1000), digitChar (now.year / 100), digitChar (now.year / 10),
           digitChar now.year, digitChar (now.month / 10), digitChar now.month,
           digitChar (now.day / 10), digitChar now.day],
          [digitChar (now.hour / 10), digitChar now.hour, digitChar (now.minute / 10),
           digitChar now.minute, digitChar (now.second / 10), digitChar now.second],
          rfl, by simp [isDigit_digitChar], rfl, by simp [isDigit_digitChar], ?_⟩
  have e1 : sanitizeName "Matti Virtanen" = "Matti Virtanen" := by decide
  have e2 : sanitizeName "Firma Oy" = "Firma Oy" := by decide
  simp only [save_contract, get_contract_data, he, hr, e1, e2]
  simp [String.data_append, DateTime.stamp, data_pad2, data_pad4]

theorem C4_amended_filename_witness :
    matchesNamePattern "Matti Virtanen_Firma Oy_" (save_contract c4Now c4Form).1 :=
  C4_amended_filename c4Form c4Now rfl rfl

/-- C5 counterexample: an entry whose `created_at` predates the 1900-01-01
fallback key sorts after an untimestamped entry, so untimestamped entries do
not sort last and the fallback key is not the oldest possible one. -/
theorem C5_counterexample :
    createdKey oldJson = some (DateTime.key ⟨1899, 6, 1, 0, 0, 0, 0⟩) ∧
    createdKey legacyJson = none ∧ stampKey "legacy" = none ∧
    load_contracts [("old.json", some oldJson), ("legacy.json", some legacyJson)] =
      [("legacy", legacyJson), ("old", oldJson)] := by
  decide

/-- C5 (amended): the catalog is sorted descending by the effective
per-entry key of `_get_sort_key` (parsed `created_at` when present and
parseable, else the filename stamp, else the fixed fallback key
1900-01-01); in particular, three entries with parseable `created_at`
timestamps T1 < T2 < T3 are listed T3, T2, T1, and an untimestamped entry
sorts last whenever the timestamped keys exceed the 1900-01-01 fallback. -/
theorem C5_sort_order :
    (∀ entries : List (String × PyJson),
      (catalogSort entries).Pairwise
        (fun a b => get_sort_key b.1 b.2 ≤ get_sort_key a.1 a.2)) ∧
    (∀ (e1 e2 e3 u : String × PyJson) (k1 k2 k3 : Nat),
      createdKey e1.2 = some k1 → createdKey e2.2 = some k2 → createdKey e3.2 = some k3 →
      k1 < k2 → k2 < k3 →
      createdKey u.2 = none → stampKey u.1 = none → fallbackKey < k1 →
      catalogSort [e1, e2, e3, u] = [e3, e2, e1, u]) := by
  constructor
  · intro entries
    exact pairwise_stableSortBy (fun e => get_sort_key e.1 e.2) entries
  · intro e1 e2 e3 u k1 k2 k3 h1 h2 h3 lt12 lt23 hu1 hu2 ltf
    have g1 : get_sort_key e1.1 e1.2 = k1 := by simp [get_sort_key, h1]
    have g2 : get_sort_key e2.1 e2.2 = k2 := by simp [get_sort_key, h2]
    have g3 : get_sort_key e3.1 e3.2 = k3 := by simp [get_sort_key, h3]
    have gu : get_sort_key u.1 u.2 = fallbackKey := by simp [get_sort_key, hu1, hu2]
    have a1 : fallbackKey ≤ k3 := by omega
    have a2 : ¬ (k3 ≤ k2) := by omega
    have a3 : fallbackKey ≤ k2 := by omega
    have a4 : ¬ (k2 ≤ k1) := by omega
    have a5 : ¬ (k3 ≤ k1) := by omega
    have a6 : fallbackKey ≤ k1 := by omega
    simp [catalogSort, stableSortBy, insOrdered, g1, g2, g3, gu, a1, a2, a3, a4, a5, a6]

theorem C5_sort_order_witness :
    catalogSort [csE1, csE2, csE3, csU] = [csE3, csE2, csE1, csU] :=
  C5_sort_order.2 csE1 csE2 csE3 csU
    (DateTime.key ⟨2020, 1, 1, 0, 0, 0, 0⟩) (DateTime.key ⟨2021, 1, 1, 0, 0, 0, 0⟩)
    (DateTime.key ⟨2022, 1, 1, 0, 0, 0, 0⟩)
    (by decide) (by decide) (by decide) (by decide) (by decide) (by decide) (by decide)
    (by decide)

/-- C6 counterexample: when two files with the same name are scanned (the
same filename in two search directories), the second one is excluded from
the catalog even though its content qualifies as a contract object, so
qualification alone is not equivalent to inclusion. -/
theorem C6_counterexample :
    is_contract_file dupJsonB = true ∧
    scanContracts [("a.json", some dupJsonA), ("a.json", some dupJsonB)] = [("a", dupJsonA)] ∧
    ("a", dupJsonB) ∉ scanContracts [("a.json", some dupJsonA), ("a.json", some dupJsonB)] := by
  decide

/-- C6 (amended): a `.json` file whose stem no other scanned file shares is
included in the catalog exactly when its content parses to a JSON object
containing at least one of `employee_name`, `employer_name`,
`contract_date`; a later qualifying file whose stem is already in the
catalog is excluded (first occurrence wins). -/
theorem C6_catalog_filtering (pre post : List (String × Option PyJson)) (name : String)
    (c : Option PyJson) (hjson : endsJson name = true)
    (hpre : ∀ g ∈ pre, stemOf g.1 ≠ stemOf name)
    (hpost : ∀ g ∈ post, stemOf g.1 ≠ stemOf name) :
    stemOf name ∈ (scanContracts (pre ++ (name, c) :: post)).map Prod.fst ↔
      ∃ d, c = some d ∧ is_contract_file d = true :=
  scan_go_middle name c post hjson hpost pre [] hpre (by simp)

theorem C6_catalog_filtering_witness :
    (stemOf "b.json" ∈
      (scanContracts [("a.json", some dupJsonA), ("b.json", some dupJsonB),
        ("c.txt", none)]).map Prod.fst ↔
      ∃ d, some dupJsonB = some d ∧ is_contract_file d = true) :=
  C6_catalog_filtering [("a.json", some dupJsonA)] [("c.txt", none)] "b.json" (some dupJsonB)
    (by decide) (by decide) (by decide)

/-- C7 (code bug): `update_preview` replaces the literal two-character
sequence backslash-`n` (the Python source says `.replace("\\n", "<br />")`),
so a real newline in `muut_ehdot` is left unchanged instead of becoming a
line break, while `generate_pdf` converts the same newline via `chr(10)`;
the preview and the export therefore disagree on the failing input. -/
theorem C7_preview_newline_bug :
    muut_ehdot_html { emptyRecord with muut_ehdot := "rivi1\nrivi2" } = "rivi1\nrivi2" ∧
    "rivi1\nrivi2" ≠ "rivi1<br />rivi2" ∧
    (pdfSections { emptyRecord with muut_ehdot := "rivi1\nrivi2" }).getLast? =
      some ("9. Muut ehdot", [("", "rivi1<br/>rivi2")]) ∧
    muut_ehdot_html { emptyRecord with muut_ehdot := "rivi1\\nrivi2" } = "rivi1<br />rivi2" := by
  decide

set_option maxRecDepth 400000 in
/-- C8 counterexample: two records that differ only in the free-text
`muut_ehdot` value produce preview markup with different numbers of
tag-opening characters, so markup-significant characters in field content
are not escaped and do change the markup structure. -/
theorem C8_counterexample :
    countChar '<' (previewHtml { emptyRecord with muut_ehdot := "<p>" }) ≠
      countChar '<' (previewHtml emptyRecord) := by
  decide

/-- C8 (amended): `update_preview` embeds the free text verbatim, without
any escaping: whenever `muut_ehdot` contains no backslash (so the literal
backslash-`n` replacement does not fire), its exact character sequence —
markup-significant characters included — appears contiguously in the
generated markup. -/
theorem C8_verbatim_embedding (r : ContractData) (hb : '\\' ∉ r.muut_ehdot.data) :
    ∃ pre post, (previewHtml r).data = pre ++ r.muut_ehdot.data ++ post := by
  refine ⟨(previewBeforeMuut r).data, (previewAfterMuut r).data, ?_⟩
  have e : muut_ehdot_html r = r.muut_ehdot :=
    pyReplace_eq_of_head_not_mem r.muut_ehdot '\\' "n" "<br />" hb
  simp [previewHtml, String.data_append, e]

theorem C8_verbatim_embedding_witness :
    ∃ pre post, (previewHtml { emptyRecord with muut_ehdot := "<i>hei</i>" }).data =
      pre ++ ({ emptyRecord with muut_ehdot := "<i>hei</i>" } :
        ContractData).muut_ehdot.data ++ post :=
  C8_verbatim_embedding { emptyRecord with muut_ehdot := "<i>hei</i>" } (by decide)

/-- C9 counterexample: with the collective-agreement gate off the preview
holds nine numbered sections, not the ten the claim states. -/
theorem C9_counterexample :
    emptyRecord.has_collective_agreement = false ∧
    (previewSections emptyRecord).length ≠ 10 := by
  decide

/-- C9 (amended): the preview contains, in fixed order, exactly nine
numbered sections when `has_collective_agreement` is false and exactly ten
when it is true, and the section structure coincides with the export block
list of `generate_pdf` whenever the newline handling cannot differ (no
newline in `main_duties` or `muut_ehdot`, no backslash in `muut_ehdot`). -/
theorem C9_section_count (r : ContractData)
    (hd : '\n' ∉ r.main_duties.data) (hm : '\n' ∉ r.muut_ehdot.data)
    (hb : '\\' ∉ r.muut_ehdot.data) :
    previewSections r = pdfSections r ∧
    (previewSections r).length = (if r.has_collective_agreement then 10 else 9) := by
  have e1 : pyReplace r.main_duties "\n" "<br/>" = r.main_duties :=
    pyReplace_eq_of_head_not_mem r.main_duties '\n' "" "<br/>" hd
  have e2 : pyReplace r.muut_ehdot "\n" "<br/>" = r.muut_ehdot :=
    pyReplace_eq_of_head_not_mem r.muut_ehdot '\n' "" "<br/>" hm
  have e3 : pyReplace r.muut_ehdot "\\n" "<br />" = r.muut_ehdot :=
    pyReplace_eq_of_head_not_mem r.muut_ehdot '\\' "n" "<br />" hb
  constructor
  · simp [previewSections, pdfSections, muut_ehdot_html, e1, e2, e3]
  · cases hc : r.has_collective_agreement <;> simp [previewSections, hc]

theorem C9_section_count_witness :
    previewSections tempRecord = pdfSections tempRecord ∧
    (previewSections tempRecord).length =
      (if tempRecord.has_collective_agreement then 10 else 9) :=
  C9_section_count tempRecord (by decide) (by decide) (by decide)

/-- C10: every record produced by `get_contract_data` with `is_temporary`
false has empty `temp_contract_reason` and `end_date`, and the record
persisted by `save_contract` carries the same cleared values. -/
theorem C10_cleared_when_permanent (s : FormState) (now : DateTime)
    (h : (get_contract_data s).is_temporary = false) :
    (get_contract_data s).temp_contract_reason = "" ∧
    (get_contract_data s).end_date = "" ∧
    (save_contract now s).2.base.temp_contract_reason = "" ∧
    (save_contract now s).2.base.end_date = "" := by
  have hs : s.temporary_checked = false := h
  simp [get_contract_data, save_contract, hs]

theorem C10_cleared_when_permanent_witness :
    (get_contract_data blankForm).temp_contract_reason = "" ∧
    (get_contract_data blankForm).end_date = "" ∧
    (save_contract c4Now blankForm).2.base.temp_contract_reason = "" ∧
    (save_contract c4Now blankForm).2.base.end_date = "" :=
  C10_cleared_when_permanent blankForm c4Now (by decide)
